import Mathlib

/-! Shallow embedding of the carbon-footprint calculator in
`staticfiles/js/carbon-calculator.js` (class `CarbonCalculator`).

JavaScript numbers are modelled as `Option ℚ`: `some q` is an ordinary
(finite, exactly represented) number, `none` is `NaN` (which also stands
for the `undefined` produced by a failed dictionary lookup once it enters
arithmetic, since `x * undefined` is `NaN` in JavaScript).  Arithmetic
propagates `none`; comparisons against `none` are `false`, as all NaN
comparisons are in JavaScript. -/

/-- A JavaScript numeric value: `some q` a number, `none` NaN. -/
def JsNum : Type := Option ℚ

instance : DecidableEq JsNum := by
  unfold JsNum
  infer_instance

/-- JavaScript `+` on numbers (NaN-propagating). -/
def jsAdd : JsNum → JsNum → JsNum
  | some a, some b => some (a + b)
  | _, _ => none

/-- JavaScript `*` on numbers (NaN-propagating; `x * undefined` is NaN,
so an absent dictionary entry is `none` here as well). -/
def jsMul : JsNum → JsNum → JsNum
  | some a, some b => some (a * b)
  | _, _ => none

/-- JavaScript `/` on numbers.  NaN propagates.  A zero divisor is mapped
to `none`; in the calculator the only divisor is the effective household
size, which is never `0` (see `intOr1`), so this arm is unreachable. -/
def jsDiv : JsNum → JsNum → JsNum
  | some a, some b => if b = 0 then none else some (a / b)
  | _, _ => none

/-- JavaScript `x < c` for a numeric `x` against a plain constant:
`false` when `x` is NaN. -/
def jsLt (a : JsNum) (c : ℚ) : Bool :=
  match a with
  | none => false
  | some q => decide (q < c)

/-- JavaScript `x > c` for a numeric `x` against a plain constant:
`false` when `x` is NaN. -/
def jsGt (a : JsNum) (c : ℚ) : Bool :=
  match a with
  | none => false
  | some q => decide (c < q)

/-- Embeds `parseFloat(s) || 0`: an unparseable / missing field (`none`, i.e.
NaN) and `0` itself are falsy and give `0`; any other parsed value is
used as-is (negative values included). -/
def numOr0 (o : Option ℚ) : ℚ := o.getD 0

/-- Embeds `parseInt(s) || 1` for `household_size`: NaN (missing or
unparseable) and `0` are falsy and give `1`; any other parsed integer,
negative ones included, is used as-is. -/
def intOr1 (o : Option Int) : Int :=
  match o with
  | none => 1
  | some n => if n = 0 then 1 else n

/-- Embeds `this.emissionFactors.transport[carType]`: dictionary lookup, absent
key gives `undefined` (`none`). -/
def emissionFactorsTransport (carType : String) : JsNum :=
  if carType = "petrol" then some 0.12
  else if carType = "diesel" then some 0.13
  else if carType = "hybrid" then some 0.08
  else if carType = "electric" then some 0.05
  else if carType = "none" then some 0
  else none

/-- Embeds the `this.emissionFactors.diet[dietType]` lookup (absent key is
`undefined`, `none`). -/
def emissionFactorsDiet (dietType : String) : Option ℚ :=
  if dietType = "vegetarian" then some 1000
  else if dietType = "meat_light" then some 1500
  else if dietType = "meat_medium" then some 2000
  else if dietType = "meat_heavy" then some 3000
  else none

/-- The local `renewableFactors` dictionary in
`calculateElectricityEmissions` (absent key is `undefined`, `none`). -/
def renewableFactorsLookup (renewableLevel : String) : Option ℚ :=
  if renewableLevel = "none" then some 1
  else if renewableLevel = "some" then some 0.7
  else if renewableLevel = "most" then some 0.3
  else if renewableLevel = "all" then some 0.1
  else none

/-- Embeds `calculateTransportEmissions(carType, carKm, publicTransportKm,
flightsHours)`: car (weekly to yearly, factor by car type), public
transport at 0.05, flights at 800 km/h times 0.2. -/
def calculateTransportEmissions (carType : String)
    (carKm publicTransportKm flightsHours : ℚ) : JsNum :=
  let carEmissions := jsMul (some (carKm * 52)) (emissionFactorsTransport carType)
  let publicTransportEmissions : ℚ := publicTransportKm * 52 * 0.05
  let flightKm : ℚ := flightsHours * 800
  let flightEmissions : ℚ := flightKm * 0.2
  jsAdd (jsAdd carEmissions (some publicTransportEmissions)) (some flightEmissions)

/-- Embeds `calculateElectricityEmissions(electricityKwh, renewableLevel,
householdSize)`: `(kwh * 12 * 0.5 * factor) / householdSize`, with the
renewable factor falling back to `1.0` on an unrecognized level
(`renewableFactors[renewableLevel] || 1.0`).  The caller always passes
the effective (nonzero) household size. -/
def calculateElectricityEmissions (electricityKwh : ℚ)
    (renewableLevel : String) (householdSize : Int) : ℚ :=
  let factor := (renewableFactorsLookup renewableLevel).getD 1
  (electricityKwh * 12 * 0.5 * factor) / (householdSize : ℚ)

/-- Embeds `calculateDietEmissions(dietType)`:
`this.emissionFactors.diet[dietType] || this.emissionFactors.diet.meat_medium`
(no diet constant is `0`, so `||` only catches the absent key). -/
def calculateDietEmissions (dietType : String) : ℚ :=
  (emissionFactorsDiet dietType).getD 2000

/-- Embeds `calculateWasteEmissions(wasteKg)`: weekly to yearly at 0.5. -/
def calculateWasteEmissions (wasteKg : ℚ) : ℚ :=
  wasteKg * 52 * 0.5

/-- The object literal returned by `getEmissionLevel`. -/
structure EmissionLevelInfo where
  level : String
  label : String
  color : String
deriving DecidableEq

/-- Embeds `getEmissionLevel(perCapitaEmissions)`: four-tier classification by
successive `<` tests (first match wins; all tests false on NaN). -/
def getEmissionLevel (perCapitaEmissions : JsNum) : EmissionLevelInfo :=
  if jsLt perCapitaEmissions 2000 then ⟨"low", "Low", "success"⟩
  else if jsLt perCapitaEmissions 5000 then ⟨"moderate", "Moderate", "warning"⟩
  else if jsLt perCapitaEmissions 10000 then ⟨"high", "High", "danger"⟩
  else ⟨"very_high", "Very High", "danger"⟩

/-- The form-derived input of `calculateEmissions`, after the JavaScript
numeric parses: a numeric field is `some q` when `parseFloat` (resp.
`parseInt` for `household_size`) produced the number `q`, and `none` when
it produced NaN (missing or unparseable field); the three enum fields
stay raw strings. -/
structure FormInput where
  car_type : String
  car_km : Option ℚ
  public_transport_km : Option ℚ
  electricity_kwh : Option ℚ
  waste_kg : Option ℚ
  flights_hours : Option ℚ
  renewable_energy : String
  diet_type : String
  household_size : Option Int
deriving DecidableEq

/-- The object literal returned by `calculateEmissions`. -/
structure EmissionBreakdown where
  transport : JsNum
  electricity : JsNum
  diet : JsNum
  waste : JsNum
  total : JsNum
  perCapita : JsNum
  householdSize : Int
  emissionLevel : EmissionLevelInfo
deriving DecidableEq

/-- Embeds `calculateEmissions()` (form present): parse the numeric fields with
`|| 0` (`|| 1` for the household size), compute the four categories, sum
them, and divide by the household size. -/
def calculateEmissions (d : FormInput) : EmissionBreakdown :=
  let carKm := numOr0 d.car_km
  let publicTransportKm := numOr0 d.public_transport_km
  let electricityKwh := numOr0 d.electricity_kwh
  let wasteKg := numOr0 d.waste_kg
  let flightsHours := numOr0 d.flights_hours
  let householdSize := intOr1 d.household_size
  let transportEmissions :=
    calculateTransportEmissions d.car_type carKm publicTransportKm flightsHours
  let electricityEmissions :=
    calculateElectricityEmissions electricityKwh d.renewable_energy householdSize
  let dietEmissions := calculateDietEmissions d.diet_type
  let wasteEmissions := calculateWasteEmissions wasteKg
  let totalEmissions :=
    jsAdd (jsAdd (jsAdd transportEmissions (some electricityEmissions))
      (some dietEmissions)) (some wasteEmissions)
  let perCapitaEmissions := jsDiv totalEmissions (some (householdSize : ℚ))
  { transport := transportEmissions
    electricity := some electricityEmissions
    diet := some dietEmissions
    waste := some wasteEmissions
    total := totalEmissions
    perCapita := perCapitaEmissions
    householdSize := householdSize
    emissionLevel := getEmissionLevel perCapitaEmissions }

/-- One recommendation record pushed by `generateSuggestions`. -/
structure Suggestion where
  category : String
  title : String
  description : String
  impact : String
  savings : String
deriving DecidableEq

/-- The transport template (`emissions.transport > 2000`). -/
def transportSuggestion : Suggestion :=
  ⟨"Transport", "Reduce Car Usage",
   "Consider carpooling, using public transport, or cycling for short trips.",
   "High", "Up to 1000 kg CO₂e/year"⟩

/-- The electricity template (`emissions.electricity > 1500`). -/
def electricitySuggestion : Suggestion :=
  ⟨"Electricity", "Switch to Renewable Energy",
   "Install solar panels or switch to a green energy provider.",
   "Medium", "Up to 750 kg CO₂e/year"⟩

/-- The diet template (`emissions.diet > 2000`). -/
def dietSuggestion : Suggestion :=
  ⟨"Diet", "Reduce Meat Consumption",
   "Try vegetarian meals 2-3 times per week.",
   "High", "Up to 1000 kg CO₂e/year"⟩

/-- The unconditional general template (tree planting). -/
def treeSuggestion : Suggestion :=
  ⟨"General", "Plant Trees",
   "Each tree absorbs about 21 kg of CO₂ per year.",
   "Low", "21 kg CO₂e/year per tree"⟩

/-- Embeds `generateSuggestions(emissions)`: three conditional pushes followed by
the unconditional general push, in source order. -/
def generateSuggestions (emissions : EmissionBreakdown) : List Suggestion :=
  (if jsGt emissions.transport 2000 then [transportSuggestion] else []) ++
  (if jsGt emissions.electricity 1500 then [electricitySuggestion] else []) ++
  (if jsGt emissions.diet 2000 then [dietSuggestion] else []) ++
  [treeSuggestion]

/-- A JSON value slot holding what `JSON.stringify` wrote for a numeric
field: a finite number serializes to itself, NaN serializes to `null`. -/
inductive JsonValue where
  | num (q : ℚ)
  | null
deriving DecidableEq

/-- Effect of `JSON.stringify` on one numeric field (NaN becomes `null`); parsing
the stored string back yields the same `JsonValue`. -/
def encodeNum : JsNum → JsonValue
  | some q => JsonValue.num q
  | none => JsonValue.null

/-- The history entry object built in `saveToLocalStorage` (the
`breakdown` sub-object is flattened into four fields). -/
structure HistoryRecord where
  id : Int
  date : String
  total : JsonValue
  perCapita : JsonValue
  level : String
  color : String
  breakdownTransport : JsonValue
  breakdownElectricity : JsonValue
  breakdownDiet : JsonValue
  breakdownWaste : JsonValue
  householdSize : Int
deriving DecidableEq

/-- Building the history entry from a breakdown (`Date.now()` and the ISO
date string are passed in as `idv` / `datev`). -/
def toHistoryRecord (idv : Int) (datev : String)
    (emissions : EmissionBreakdown) : HistoryRecord :=
  { id := idv
    date := datev
    total := encodeNum emissions.total
    perCapita := encodeNum emissions.perCapita
    level := emissions.emissionLevel.label
    color := emissions.emissionLevel.color
    breakdownTransport := encodeNum emissions.transport
    breakdownElectricity := encodeNum emissions.electricity
    breakdownDiet := encodeNum emissions.diet
    breakdownWaste := encodeNum emissions.waste
    householdSize := emissions.householdSize }

/-- The list update in `saveToLocalStorage`:
`calcHistory.unshift(record)` followed by `calcHistory.slice(0, 10)`. -/
def historyAfterSave (record : HistoryRecord)
    (calcHistory : List HistoryRecord) : List HistoryRecord :=
  (record :: calcHistory).take 10

/-- Outcome of the single remote attempt in `saveToServer`: `ok` is an
HTTP-OK response (with readable body), `httpError` a response with
`response.ok` false, `exn` a thrown error (network failure). -/
inductive RemoteOutcome where
  | ok
  | httpError
  | exn
deriving DecidableEq

/-- Outcome of the localStorage write in `saveToLocalStorage`: `ok`, or a
thrown storage error. -/
inductive LocalOutcome where
  | ok
  | exn
deriving DecidableEq

/-- Which user notification the flow ends with. -/
inductive SaveNotification where
  | remoteSuccess
  | localSuccess
  | localError
deriving DecidableEq

/-- Observable trace of one run of the persistence flow. -/
structure SaveTrace where
  remoteAttempts : Nat
  localAttempts : Nat
  notification : SaveNotification
deriving DecidableEq

/-- Embeds `saveToLocalStorage`: try the write; success alert on success, error
alert on a thrown storage error, no further fallback. -/
def saveToLocalStorageFlow (l : LocalOutcome) : SaveNotification :=
  match l with
  | LocalOutcome.ok => SaveNotification.localSuccess
  | LocalOutcome.exn => SaveNotification.localError

/-- Embeds `saveToServer`: one fetch; on `response.ok` report remote success and
stop; on a non-OK response or a thrown error fall back to exactly one
`saveToLocalStorage` call; no retry of the remote path. -/
def saveToServer (r : RemoteOutcome) (l : LocalOutcome) : SaveTrace :=
  match r with
  | RemoteOutcome.ok => ⟨1, 0, SaveNotification.remoteSuccess⟩
  | RemoteOutcome.httpError => ⟨1, 1, saveToLocalStorageFlow l⟩
  | RemoteOutcome.exn => ⟨1, 1, saveToLocalStorageFlow l⟩

/-! Spec-side formulas, written from the specification text, to be
compared with the code embedding above (claim C1). -/

/-- Spec formula: the transport factor table
{petrol: 0.12, diesel: 0.13, hybrid: 0.08, electric: 0.05, none: 0}
(meaningful on recognized modes only). -/
def specTransportFactor (mode : String) : ℚ :=
  if mode = "petrol" then 0.12
  else if mode = "diesel" then 0.13
  else if mode = "hybrid" then 0.08
  else if mode = "electric" then 0.05
  else 0

/-- Spec formula: the renewable factor table
{none: 1.0, some: 0.7, most: 0.3, all: 0.1}
(meaningful on recognized shares only). -/
def specRenewableFactor (share : String) : ℚ :=
  if share = "none" then 1
  else if share = "some" then 0.7
  else if share = "most" then 0.3
  else 0.1

/-- Spec formula: the diet constant table
{vegetarian: 1000, meat_light: 1500, meat_medium: 2000, meat_heavy: 3000}
(meaningful on recognized diets only). -/
def specDietConstant (dietType : String) : ℚ :=
  if dietType = "vegetarian" then 1000
  else if dietType = "meat_light" then 1500
  else if dietType = "meat_medium" then 2000
  else 3000

/-- Spec formula: transport = carKmPerWeek*52*factor[mode]
+ publicTransportKmPerWeek*52*0.05 + flightHoursPerYear*800*0.2. -/
def specTransport (mode : String) (carKmPerWeek publicKmPerWeek flightHoursPerYear : ℚ) : ℚ :=
  carKmPerWeek * 52 * specTransportFactor mode
    + publicKmPerWeek * 52 * 0.05 + flightHoursPerYear * 800 * 0.2

/-- Spec formula: electricity =
(electricityKwhPerMonth*12*0.5*renewableFactor) / householdSize. -/
def specElectricity (kwhPerMonth : ℚ) (share : String) (householdSize : Int) : ℚ :=
  (kwhPerMonth * 12 * 0.5 * specRenewableFactor share) / (householdSize : ℚ)

/-- Spec formula: waste = wasteKgPerWeek*52*0.5. -/
def specWaste (wasteKgPerWeek : ℚ) : ℚ :=
  wasteKgPerWeek * 52 * 0.5

/-! Helper lemmas (shared across the claim theorems below). -/

lemma calcEmissions_transport_eq (i : FormInput) :
    (calculateEmissions i).transport = calculateTransportEmissions i.car_type
      (numOr0 i.car_km) (numOr0 i.public_transport_km) (numOr0 i.flights_hours) := rfl

lemma calcEmissions_electricity_eq (i : FormInput) :
    (calculateEmissions i).electricity = some (calculateElectricityEmissions
      (numOr0 i.electricity_kwh) i.renewable_energy (intOr1 i.household_size)) := rfl

lemma calcEmissions_diet_eq (i : FormInput) :
    (calculateEmissions i).diet = some (calculateDietEmissions i.diet_type) := rfl

lemma calcEmissions_waste_eq (i : FormInput) :
    (calculateEmissions i).waste = some (calculateWasteEmissions (numOr0 i.waste_kg)) := rfl

lemma calcEmissions_total_eq (i : FormInput) :
    (calculateEmissions i).total = jsAdd (jsAdd (jsAdd (calculateEmissions i).transport
      (calculateEmissions i).electricity) (calculateEmissions i).diet)
      (calculateEmissions i).waste := rfl

lemma calcEmissions_perCapita_eq (i : FormInput) :
    (calculateEmissions i).perCapita = jsDiv (calculateEmissions i).total
      (some (((calculateEmissions i).householdSize : Int) : ℚ)) := rfl

lemma calcEmissions_householdSize_eq (i : FormInput) :
    (calculateEmissions i).householdSize = intOr1 i.household_size := rfl

lemma calcEmissions_level_eq (i : FormInput) :
    (calculateEmissions i).emissionLevel =
      getEmissionLevel ((calculateEmissions i).perCapita) := rfl

lemma intOr1_ne_zero (o : Option Int) : intOr1 o ≠ 0 := by
  rcases o with _ | n
  · simp [intOr1]
  · simp only [intOr1]
    split
    · simp
    · assumption

lemma intOr1_some_of_ne_zero (n : Int) (h : n ≠ 0) : intOr1 (some n) = n := by
  simp [intOr1, h]

lemma transport_matches_spec (mode : String) (ck pt fh : ℚ)
    (h : mode = "petrol" ∨ mode = "diesel" ∨ mode = "hybrid" ∨
      mode = "electric" ∨ mode = "none") :
    calculateTransportEmissions mode ck pt fh = some (specTransport mode ck pt fh) := by
  rcases h with h | h | h | h | h <;> subst h <;>
    simp [calculateTransportEmissions, emissionFactorsTransport, jsMul, jsAdd,
      specTransport, specTransportFactor]

lemma electricity_matches_spec (ek : ℚ) (share : String) (hs : Int)
    (h : share = "none" ∨ share = "some" ∨ share = "most" ∨ share = "all") :
    calculateElectricityEmissions ek share hs = specElectricity ek share hs := by
  rcases h with h | h | h | h <;> subst h <;>
    simp [calculateElectricityEmissions, renewableFactorsLookup,
      specElectricity, specRenewableFactor]

lemma diet_matches_spec (dt : String)
    (h : dt = "vegetarian" ∨ dt = "meat_light" ∨ dt = "meat_medium" ∨
      dt = "meat_heavy") :
    calculateDietEmissions dt = specDietConstant dt := by
  rcases h with h | h | h | h <;> subst h <;>
    simp [calculateDietEmissions, emissionFactorsDiet, specDietConstant]

lemma waste_matches_spec (wk : ℚ) : calculateWasteEmissions wk = specWaste wk := rfl

/-- C1: for every input with recognized enum values and parseable numeric
fields, `calculateEmissions` produces exactly the four category values of
the specification formulas — transport by car/public-transport/flight
factors, electricity (the only category divided by household size before
aggregation) by the renewable-factor formula, diet the fixed constant,
waste at `52 * 0.5` per weekly kg. -/
theorem C1_category_formulas (i : FormInput) (ck pt ek wk fh : ℚ) (n : ℤ)
    (hck : i.car_km = some ck) (hpt : i.public_transport_km = some pt)
    (hek : i.electricity_kwh = some ek) (hwk : i.waste_kg = some wk)
    (hfh : i.flights_hours = some fh) (hhs : i.household_size = some n)
    (hn : 0 < n)
    (hmode : i.car_type = "petrol" ∨ i.car_type = "diesel" ∨
      i.car_type = "hybrid" ∨ i.car_type = "electric" ∨ i.car_type = "none")
    (hren : i.renewable_energy = "none" ∨ i.renewable_energy = "some" ∨
      i.renewable_energy = "most" ∨ i.renewable_energy = "all")
    (hdiet : i.diet_type = "vegetarian" ∨ i.diet_type = "meat_light" ∨
      i.diet_type = "meat_medium" ∨ i.diet_type = "meat_heavy") :
    (calculateEmissions i).transport = some (specTransport i.car_type ck pt fh) ∧
    (calculateEmissions i).electricity = some (specElectricity ek i.renewable_energy n) ∧
    (calculateEmissions i).diet = some (specDietConstant i.diet_type) ∧
    (calculateEmissions i).waste = some (specWaste wk) := by
  have hsz : intOr1 i.household_size = n := by
    rw [hhs]
    exact intOr1_some_of_ne_zero n (by omega)
  refine ⟨?_, ?_, ?_, ?_⟩
  · rw [calcEmissions_transport_eq, hck, hpt, hfh]
    exact transport_matches_spec i.car_type ck pt fh hmode
  · rw [calcEmissions_electricity_eq, hek, hsz]
    exact congrArg some (electricity_matches_spec ek i.renewable_energy n hren)
  · rw [calcEmissions_diet_eq]
    exact congrArg some (diet_matches_spec i.diet_type hdiet)
  · rw [calcEmissions_waste_eq, hwk]
    rfl

/-- Input with an unrecognized transport mode: the factor lookup yields
`undefined` and the car term becomes NaN. -/
def badEnumInput : FormInput :=
  ⟨"rocket", some 1, some 0, some 0, some 0, some 0, "none", "meat_medium", some 1⟩

/-- C2 as stated is false: with the unrecognized transport mode `rocket`
(all numeric fields parseable), the transport, total and per-capita
fields are NaN, not real numbers — there is no fallback for an
unrecognized transport mode. -/
theorem C2_counterexample :
    (calculateEmissions badEnumInput).transport = none ∧
    (calculateEmissions badEnumInput).total = none ∧
    (calculateEmissions badEnumInput).perCapita = none ∧
    ¬ (∀ i : FormInput, ((calculateEmissions i).transport).isSome = true) := by
  refine ⟨rfl, rfl, rfl, ?_⟩
  intro h
  have h2 := h badEnumInput
  rw [show (calculateEmissions badEnumInput).transport = none from rfl] at h2
  simp at h2

/-- C2 amended: `calculateEmissions` is total and never throws; missing
or unparseable numeric fields are treated as 0 (household size as 1); an
unrecognized dietType falls back to the meat_medium constant 2000 and an
unrecognized renewableShare to factor 1.0, so the electricity, diet and
waste fields are always real numbers; but only when the transport mode is
recognized are the transport, total and per-capita fields real numbers
(an unrecognized transport mode yields NaN there). -/
theorem C2_amended_safety (i : FormInput) :
    ((calculateEmissions i).electricity).isSome = true ∧
    ((calculateEmissions i).diet).isSome = true ∧
    ((calculateEmissions i).waste).isSome = true ∧
    numOr0 none = 0 ∧ intOr1 none = 1 ∧
    ((i.diet_type ≠ "vegetarian" ∧ i.diet_type ≠ "meat_light" ∧
      i.diet_type ≠ "meat_medium" ∧ i.diet_type ≠ "meat_heavy") →
      (calculateEmissions i).diet = some 2000) ∧
    ((i.renewable_energy ≠ "none" ∧ i.renewable_energy ≠ "some" ∧
      i.renewable_energy ≠ "most" ∧ i.renewable_energy ≠ "all") →
      (calculateEmissions i).electricity =
        some ((numOr0 i.electricity_kwh * 12 * 0.5 * 1) /
          ((intOr1 i.household_size : Int) : ℚ))) ∧
    ((i.car_type = "petrol" ∨ i.car_type = "diesel" ∨ i.car_type = "hybrid" ∨
      i.car_type = "electric" ∨ i.car_type = "none") →
      ((calculateEmissions i).transport).isSome = true ∧
      ((calculateEmissions i).total).isSome = true ∧
      ((calculateEmissions i).perCapita).isSome = true) := by
  refine ⟨rfl, rfl, rfl, rfl, rfl, ?_, ?_, ?_⟩
  · rintro ⟨h1, h2, h3, h4⟩
    rw [calcEmissions_diet_eq]
    simp [calculateDietEmissions, emissionFactorsDiet, h1, h2, h3, h4]
  · rintro ⟨h1, h2, h3, h4⟩
    rw [calcEmissions_electricity_eq]
    simp [calculateElectricityEmissions, renewableFactorsLookup, h1, h2, h3, h4]
  · intro hmode
    have htr : ∃ t : ℚ, (calculateEmissions i).transport = some t := by
      rw [calcEmissions_transport_eq]
      rcases hmode with h | h | h | h | h <;> rw [h] <;> exact ⟨_, rfl⟩
    rcases htr with ⟨t, ht⟩
    have htot : (calculateEmissions i).total =
        some (t + calculateElectricityEmissions (numOr0 i.electricity_kwh)
          i.renewable_energy (intOr1 i.household_size) +
          calculateDietEmissions i.diet_type +
          calculateWasteEmissions (numOr0 i.waste_kg)) := by
      rw [calcEmissions_total_eq, ht, calcEmissions_electricity_eq,
        calcEmissions_diet_eq, calcEmissions_waste_eq]
      simp [jsAdd]
    refine ⟨by rw [ht]; rfl, by rw [htot]; rfl, ?_⟩
    rw [calcEmissions_perCapita_eq, htot, calcEmissions_householdSize_eq]
    have hz : ((intOr1 i.household_size : Int) : ℚ) ≠ 0 := by
      exact_mod_cast intOr1_ne_zero i.household_size
    simp [jsDiv, hz]

/-- The worked example of the specification: 20 km/wk petrol car, 200
kWh/mo with no renewables, meat_medium diet, 10 kg/wk waste, household
of 2. -/
def specExampleInput : FormInput :=
  ⟨"petrol", some 20, some 0, some 200, some 10, some 0, "none", "meat_medium", some 2⟩

theorem C1_witness :
    (calculateEmissions specExampleInput).transport = some (specTransport ("petrol") 20 0 0) ∧
    (calculateEmissions specExampleInput).electricity = some (specElectricity 200 "none" 2) ∧
    (calculateEmissions specExampleInput).diet = some (specDietConstant ("meat_medium")) ∧
    (calculateEmissions specExampleInput).waste = some (specWaste 10) ∧
    specTransport ("petrol") 20 0 0 = 124.8 ∧
    specElectricity 200 "none" 2 = 600 ∧
    specDietConstant ("meat_medium") = 2000 ∧
    specWaste 10 = 260 := by
  have h := C1_category_formulas specExampleInput 20 0 200 10 0 2
    rfl rfl rfl rfl rfl rfl (by norm_num)
    (Or.inl rfl) (Or.inl rfl) (Or.inr (Or.inr (Or.inl rfl)))
  refine ⟨h.1, h.2.1, h.2.2.1, h.2.2.2, ?_, ?_, ?_, ?_⟩
  · simp [specTransport, specTransportFactor]
    norm_num
  · simp [specElectricity, specRenewableFactor]
    norm_num
  · simp [specDietConstant]
  · simp [specWaste]
    norm_num

/-- Input exercising both enum fallbacks (unknown diet `vegan`, unknown
renewable `solar`) with a recognized transport mode. -/
def fallbackInput : FormInput :=
  ⟨"none", some 0, some 0, some 100, some 0, some 0, "solar", "vegan", some 2⟩

theorem C2_witness :
    (calculateEmissions fallbackInput).diet = some 2000 ∧
    (calculateEmissions fallbackInput).electricity =
      some ((numOr0 fallbackInput.electricity_kwh * 12 * 0.5 * 1) /
        ((intOr1 fallbackInput.household_size : Int) : ℚ)) ∧
    ((calculateEmissions fallbackInput).transport).isSome = true ∧
    ((calculateEmissions fallbackInput).total).isSome = true ∧
    ((calculateEmissions fallbackInput).perCapita).isSome = true := by
  have h := C2_amended_safety fallbackInput
  have hdiet := h.2.2.2.2.2.1 (by refine ⟨?_, ?_, ?_, ?_⟩ <;> decide)
  have hele := h.2.2.2.2.2.2.1 (by refine ⟨?_, ?_, ?_, ?_⟩ <;> decide)
  have hmode := h.2.2.2.2.2.2.2 (Or.inr (Or.inr (Or.inr (Or.inr rfl))))
  exact ⟨hdiet, hele, hmode.1, hmode.2.1, hmode.2.2⟩

/-- C3: for every input the total field is exactly the JavaScript sum of
the four category fields, and when all four are real numbers the total is
exactly their rational sum — no rounding before summation. -/
theorem C3_total_exact_sum (i : FormInput) :
    (calculateEmissions i).total =
      jsAdd (jsAdd (jsAdd (calculateEmissions i).transport
        (calculateEmissions i).electricity) (calculateEmissions i).diet)
        (calculateEmissions i).waste ∧
    (∀ t e d w : ℚ, (calculateEmissions i).transport = some t →
      (calculateEmissions i).electricity = some e →
      (calculateEmissions i).diet = some d →
      (calculateEmissions i).waste = some w →
      (calculateEmissions i).total = some (t + e + d + w)) := by
  refine ⟨rfl, ?_⟩
  intro t e d w ht he hd hw
  rw [calcEmissions_total_eq, ht, he, hd, hw]
  rfl

theorem C3_witness :
    (calculateEmissions specExampleInput).total =
      jsAdd (jsAdd (jsAdd (calculateEmissions specExampleInput).transport
        (calculateEmissions specExampleInput).electricity)
        (calculateEmissions specExampleInput).diet)
        (calculateEmissions specExampleInput).waste ∧
    (calculateEmissions specExampleInput).total = some (124.8 + 600 + 2000 + 260) := by
  have h := C3_total_exact_sum specExampleInput
  refine ⟨h.1, h.2 124.8 600 2000 260 ?_ ?_ ?_ ?_⟩
  · rw [calcEmissions_transport_eq]
    simp [specExampleInput, calculateTransportEmissions, emissionFactorsTransport,
      jsMul, jsAdd, numOr0]
    norm_num
  · rw [calcEmissions_electricity_eq]
    simp [specExampleInput, calculateElectricityEmissions, renewableFactorsLookup,
      numOr0, intOr1]
    norm_num
  · rw [calcEmissions_diet_eq]
    simp [specExampleInput, calculateDietEmissions, emissionFactorsDiet]
  · rw [calcEmissions_waste_eq]
    simp [specExampleInput, calculateWasteEmissions, numOr0]
    norm_num

/-- Input whose household_size field parses to the negative integer -2
(everything else zero except a vegetarian diet). -/
def negHouseholdInput : FormInput :=
  ⟨"none", some 0, some 0, some 0, some 0, some 0, "none", "vegetarian", some (-2)⟩

/-- C4 as stated is false: a household size that parses to -2 is used
as-is (`parseInt(x) || 1` only catches NaN and 0), so the effective
household size is -2 — not defaulted to 1, not positive — and the
per-capita value is divided by a negative number (1000 / -2 = -500
here). -/
theorem C4_counterexample :
    (calculateEmissions negHouseholdInput).householdSize = -2 ∧
    ¬ (0 < (calculateEmissions negHouseholdInput).householdSize) ∧
    (calculateEmissions negHouseholdInput).perCapita = some (-500) := by
  refine ⟨rfl, by decide, ?_⟩
  rw [calcEmissions_perCapita_eq, calcEmissions_total_eq,
    calcEmissions_transport_eq, calcEmissions_electricity_eq,
    calcEmissions_diet_eq, calcEmissions_waste_eq, calcEmissions_householdSize_eq]
  simp only [negHouseholdInput, numOr0, intOr1, Option.getD,
    calculateTransportEmissions, calculateElectricityEmissions,
    calculateDietEmissions, calculateWasteEmissions, emissionFactorsTransport,
    emissionFactorsDiet, renewableFactorsLookup, jsAdd, jsMul, jsDiv]
  simp
  norm_num

/-- C4 amended: the per-capita field always equals total divided by the
effective household size, and the effective household size defaults to 1
exactly when the field is absent, unparseable, or parses to 0; any other
parsed integer — negative ones included — is used as-is.  The effective
household size is therefore a nonzero integer (so the division never
divides by zero) but not necessarily positive. -/
theorem C4_perCapita_division (i : FormInput) :
    (calculateEmissions i).householdSize ≠ 0 ∧
    (calculateEmissions i).perCapita = jsDiv (calculateEmissions i).total
      (some (((calculateEmissions i).householdSize : Int) : ℚ)) ∧
    (i.household_size = none → (calculateEmissions i).householdSize = 1) ∧
    (i.household_size = some 0 → (calculateEmissions i).householdSize = 1) ∧
    (∀ n : ℤ, n ≠ 0 → i.household_size = some n →
      (calculateEmissions i).householdSize = n) ∧
    (∀ t : ℚ, (calculateEmissions i).total = some t →
      (calculateEmissions i).perCapita =
        some (t / (((calculateEmissions i).householdSize : Int) : ℚ))) := by
  refine ⟨?_, rfl, ?_, ?_, ?_, ?_⟩
  · rw [calcEmissions_householdSize_eq]
    exact intOr1_ne_zero i.household_size
  · intro h
    rw [calcEmissions_householdSize_eq, h]
    rfl
  · intro h
    rw [calcEmissions_householdSize_eq, h]
    rfl
  · intro n hn h
    rw [calcEmissions_householdSize_eq, h]
    exact intOr1_some_of_ne_zero n hn
  · intro t ht
    rw [calcEmissions_perCapita_eq, ht]
    have hz : (((calculateEmissions i).householdSize : Int) : ℚ) ≠ 0 := by
      rw [calcEmissions_householdSize_eq]
      exact_mod_cast intOr1_ne_zero i.household_size
    simp [jsDiv, hz]

theorem C4_witness :
    (calculateEmissions specExampleInput).householdSize ≠ 0 ∧
    (calculateEmissions specExampleInput).householdSize = 2 ∧
    (calculateEmissions specExampleInput).perCapita =
      some (2984.8 / ((2 : Int) : ℚ)) := by
  have h := C4_perCapita_division specExampleInput
  have hsz : (calculateEmissions specExampleInput).householdSize = 2 :=
    h.2.2.2.2.1 2 (by decide) rfl
  have htot : (calculateEmissions specExampleInput).total = some 2984.8 := by
    rw [calcEmissions_total_eq, calcEmissions_transport_eq,
      calcEmissions_electricity_eq, calcEmissions_diet_eq, calcEmissions_waste_eq]
    simp only [specExampleInput, numOr0, intOr1, Option.getD,
      calculateTransportEmissions, calculateElectricityEmissions,
      calculateDietEmissions, calculateWasteEmissions, emissionFactorsTransport,
      emissionFactorsDiet, renewableFactorsLookup, jsAdd, jsMul]
    simp
    norm_num
  have hpc := h.2.2.2.2.2 2984.8 htot
  rw [hsz] at hpc
  exact ⟨h.1, hsz, hpc⟩

/-- C5: the classification is a pure function of the per-capita value,
with half-open ascending thresholds and first match winning: below 2000
low, [2000, 5000) moderate, [5000, 10000) high, at or above 10000
very_high; and the level field of the breakdown is derived solely from its
per-capita field. -/
theorem C5_classification_thresholds :
    (∀ x : ℚ, ((getEmissionLevel (some x)).level = "low" ↔ x < 2000) ∧
      ((getEmissionLevel (some x)).level = "moderate" ↔ 2000 ≤ x ∧ x < 5000) ∧
      ((getEmissionLevel (some x)).level = "high" ↔ 5000 ≤ x ∧ x < 10000) ∧
      ((getEmissionLevel (some x)).level = "very_high" ↔ 10000 ≤ x)) ∧
    (∀ i : FormInput, (calculateEmissions i).emissionLevel =
      getEmissionLevel ((calculateEmissions i).perCapita)) := by
  constructor
  · intro x
    simp only [getEmissionLevel, jsLt]
    split_ifs with h1 h2 h3
    · simp only [decide_eq_true_eq] at h1
      refine ⟨by simpa using h1, ?_, ?_, ?_⟩
      · simp only [show ("low" = "moderate") = False by simp, false_iff]
        rintro ⟨h, _⟩
        linarith
      · simp only [show ("low" = "high") = False by simp, false_iff]
        rintro ⟨h, _⟩
        linarith
      · simp only [show ("low" = "very_high") = False by simp, false_iff]
        intro h
        linarith
    · simp only [decide_eq_true_eq] at h2
      simp only [decide_eq_true_eq, Bool.not_eq_true, decide_eq_false_iff_not,
        not_lt] at h1
      refine ⟨?_, by simp [h1, h2], ?_, ?_⟩
      · simp only [show ("moderate" = "low") = False by simp, false_iff, not_lt]
        exact h1
      · simp only [show ("moderate" = "high") = False by simp, false_iff]
        rintro ⟨h, _⟩
        linarith
      · simp only [show ("moderate" = "very_high") = False by simp, false_iff]
        intro h
        linarith
    · simp only [decide_eq_true_eq] at h3
      simp only [decide_eq_true_eq, Bool.not_eq_true, decide_eq_false_iff_not,
        not_lt] at h1 h2
      refine ⟨?_, ?_, by simp [h2, h3], ?_⟩
      · simp only [show ("high" = "low") = False by simp, false_iff, not_lt]
        linarith
      · simp only [show ("high" = "moderate") = False by simp, false_iff]
        rintro ⟨_, h⟩
        linarith
      · simp only [show ("high" = "very_high") = False by simp, false_iff]
        intro h
        linarith
    · simp only [decide_eq_true_eq, Bool.not_eq_true, decide_eq_false_iff_not,
        not_lt] at h1 h2 h3
      refine ⟨?_, ?_, ?_, by simpa using h3⟩
      · simp only [show ("very_high" = "low") = False by simp, false_iff, not_lt]
        linarith
      · simp only [show ("very_high" = "moderate") = False by simp, false_iff]
        rintro ⟨_, h⟩
        linarith
      · simp only [show ("very_high" = "high") = False by simp, false_iff]
        rintro ⟨_, h⟩
        linarith
  · intro i
    exact calcEmissions_level_eq i

/-- C6: after every local save the history holds at most 10 entries, the
new record is at index 0, and when the prior history already holds 10
entries exactly the oldest (last) entry is evicted — for every prior
history state and every record being saved. -/
theorem C6_history_cap (record : HistoryRecord) (calcHistory : List HistoryRecord) :
    (historyAfterSave record calcHistory).length ≤ 10 ∧
    (historyAfterSave record calcHistory).head? = some record ∧
    (calcHistory.length = 10 →
      historyAfterSave record calcHistory = record :: calcHistory.dropLast) := by
  refine ⟨?_, ?_, ?_⟩
  · simp only [historyAfterSave, List.length_take]
    omega
  · simp [historyAfterSave]
  · intro h
    simp only [historyAfterSave]
    rw [show (10 : ℕ) = 9 + 1 from rfl, List.take_succ_cons,
      List.dropLast_eq_take, h]

/-- A sample stored history entry. -/
def histSample : HistoryRecord :=
  ⟨0, "2024-01-01", JsonValue.num 2984, JsonValue.num 1492, "Low", "success",
   JsonValue.num 124, JsonValue.num 600, JsonValue.num 2000, JsonValue.num 260, 2⟩

/-- A second, distinct history entry. -/
def histSample2 : HistoryRecord :=
  ⟨1, "2024-01-02", JsonValue.num 1000, JsonValue.num 1000, "Low", "success",
   JsonValue.num 0, JsonValue.num 0, JsonValue.num 1000, JsonValue.num 0, 1⟩

/-- A full (10-entry) prior history. -/
def fullHistory : List HistoryRecord := List.replicate 10 histSample

theorem C6_witness :
    (historyAfterSave histSample2 fullHistory).length ≤ 10 ∧
    (historyAfterSave histSample2 fullHistory).head? = some histSample2 ∧
    historyAfterSave histSample2 fullHistory = histSample2 :: fullHistory.dropLast := by
  have h := C6_history_cap histSample2 fullHistory
  exact ⟨h.1, h.2.1, h.2.2 rfl⟩

/-- C7: the persistence step is a two-state fallback with no retries —
the remote save is attempted exactly once; on HTTP OK the flow ends
reporting remote success with no local write; on any remote failure
(non-OK status or thrown network error) exactly one local save runs and
its own success or failure is reported; a local failure yields the error
notification with no further fallback. -/
theorem C7_persistence_fallback (r : RemoteOutcome) (l : LocalOutcome) :
    (saveToServer r l).remoteAttempts = 1 ∧
    (r = RemoteOutcome.ok →
      (saveToServer r l).localAttempts = 0 ∧
      (saveToServer r l).notification = SaveNotification.remoteSuccess) ∧
    (r ≠ RemoteOutcome.ok →
      (saveToServer r l).localAttempts = 1 ∧
      (l = LocalOutcome.ok →
        (saveToServer r l).notification = SaveNotification.localSuccess) ∧
      (l = LocalOutcome.exn →
        (saveToServer r l).notification = SaveNotification.localError)) := by
  cases r <;> cases l <;> simp [saveToServer, saveToLocalStorageFlow]

theorem C7_witness :
    (saveToServer RemoteOutcome.ok LocalOutcome.ok).localAttempts = 0 ∧
    (saveToServer RemoteOutcome.ok LocalOutcome.ok).notification =
      SaveNotification.remoteSuccess ∧
    (saveToServer RemoteOutcome.httpError LocalOutcome.ok).localAttempts = 1 ∧
    (saveToServer RemoteOutcome.httpError LocalOutcome.ok).notification =
      SaveNotification.localSuccess ∧
    (saveToServer RemoteOutcome.exn LocalOutcome.exn).notification =
      SaveNotification.localError := by
  have h1 := C7_persistence_fallback RemoteOutcome.ok LocalOutcome.ok
  have h2 := C7_persistence_fallback RemoteOutcome.httpError LocalOutcome.ok
  have h3 := C7_persistence_fallback RemoteOutcome.exn LocalOutcome.exn
  have a1 := h1.2.1 rfl
  have a2 := h2.2.2 (by decide)
  have a3 := h3.2.2 (by decide)
  exact ⟨a1.1, a1.2, a2.1, a2.2.1 rfl, a3.2.2 rfl⟩

/-- C8: serializing a breakdown into the local history record and reading
the stored fields back reproduces the identical four category values and
the identical total (for every breakdown whose fields are numbers, which
is what `JSON.stringify` preserves exactly). -/
theorem C8_history_roundtrip (e : EmissionBreakdown) (idv : Int) (datev : String)
    (t el d w tot : ℚ) (ht : e.transport = some t) (hel : e.electricity = some el)
    (hd : e.diet = some d) (hw : e.waste = some w) (htot : e.total = some tot) :
    (toHistoryRecord idv datev e).breakdownTransport = JsonValue.num t ∧
    (toHistoryRecord idv datev e).breakdownElectricity = JsonValue.num el ∧
    (toHistoryRecord idv datev e).breakdownDiet = JsonValue.num d ∧
    (toHistoryRecord idv datev e).breakdownWaste = JsonValue.num w ∧
    (toHistoryRecord idv datev e).total = JsonValue.num tot := by
  simp [toHistoryRecord, encodeNum, ht, hel, hd, hw, htot]

/-- A concrete breakdown with numeric fields, matching the worked
example of the specification. -/
def sampleBreakdown : EmissionBreakdown :=
  ⟨some 124.8, some 600, some 2000, some 260, some 2984.8, some 1492.4, 2,
   ⟨"low", "Low", "success"⟩⟩

theorem C8_witness :
    (toHistoryRecord 0 "2024-01-01" sampleBreakdown).breakdownTransport =
      JsonValue.num 124.8 ∧
    (toHistoryRecord 0 "2024-01-01" sampleBreakdown).breakdownElectricity =
      JsonValue.num 600 ∧
    (toHistoryRecord 0 "2024-01-01" sampleBreakdown).breakdownDiet =
      JsonValue.num 2000 ∧
    (toHistoryRecord 0 "2024-01-01" sampleBreakdown).breakdownWaste =
      JsonValue.num 260 ∧
    (toHistoryRecord 0 "2024-01-01" sampleBreakdown).total =
      JsonValue.num 2984.8 :=
  C8_history_roundtrip sampleBreakdown 0 "2024-01-01" 124.8 600 2000 260 2984.8
    rfl rfl rfl rfl rfl

/-- C9: suggestion generation is a pure function of the breakdown — the
transport template appears iff transport > 2000, the electricity template
iff electricity > 1500, the diet template iff diet > 2000, the
tree-planting template is always the (unique) last element, and no other
record ever appears; each template is a fixed constant independent of the
magnitudes. -/
theorem C9_suggestion_generation (e : EmissionBreakdown) :
    (transportSuggestion ∈ generateSuggestions e ↔ jsGt e.transport 2000 = true) ∧
    (electricitySuggestion ∈ generateSuggestions e ↔ jsGt e.electricity 1500 = true) ∧
    (dietSuggestion ∈ generateSuggestions e ↔ jsGt e.diet 2000 = true) ∧
    (generateSuggestions e).getLast? = some treeSuggestion ∧
    (generateSuggestions e).count treeSuggestion = 1 ∧
    (∀ s, s ∈ generateSuggestions e → s = transportSuggestion ∨
      s = electricitySuggestion ∨ s = dietSuggestion ∨ s = treeSuggestion) := by
  have d1 : transportSuggestion ≠ electricitySuggestion := by decide
  have d2 : transportSuggestion ≠ dietSuggestion := by decide
  have d3 : transportSuggestion ≠ treeSuggestion := by decide
  have d4 : electricitySuggestion ≠ dietSuggestion := by decide
  have d5 : electricitySuggestion ≠ treeSuggestion := by decide
  have d6 : dietSuggestion ≠ treeSuggestion := by decide
  cases h1 : jsGt e.transport 2000 <;> cases h2 : jsGt e.electricity 1500 <;>
    cases h3 : jsGt e.diet 2000 <;>
    simp_all [generateSuggestions, List.count_cons, List.count_singleton] <;>
    tauto

theorem C9_witness :
    (transportSuggestion ∈ generateSuggestions sampleBreakdown ↔
      jsGt sampleBreakdown.transport 2000 = true) ∧
    (generateSuggestions sampleBreakdown).getLast? = some treeSuggestion ∧
    (∀ s, s ∈ generateSuggestions sampleBreakdown → s = transportSuggestion ∨
      s = electricitySuggestion ∨ s = dietSuggestion ∨ s = treeSuggestion) := by
  have h := C9_suggestion_generation sampleBreakdown
  exact ⟨h.1, h.2.2.2.1, h.2.2.2.2.2⟩

/-- Input with a negative parsed car-km value. -/
def negCarInput : FormInput :=
  ⟨"petrol", some (-100), some 0, some 0, some 0, some 0, "none", "vegetarian", some 1⟩

/-- Same as `negCarInput` with the car-km field set to 0. -/
def negCarZeroInput : FormInput :=
  ⟨"petrol", some 0, some 0, some 0, some 0, some 0, "none", "vegetarian", some 1⟩

/-- Input with a negative parsed waste value. -/
def negWasteInput : FormInput :=
  ⟨"none", some 0, some 0, some 0, some (-5), some 0, "none", "vegetarian", some 1⟩

/-- Same as `negWasteInput` with the waste field set to 0. -/
def negWasteZeroInput : FormInput :=
  ⟨"none", some 0, some 0, some 0, some 0, some 0, "none", "vegetarian", some 1⟩

/-- C10 (implicit): negative parsed numeric values are not clamped or
defaulted — `parseFloat(x) || 0` passes any nonzero parse through, so
carKmPerWeek = -100 yields transport -624 < 0 and a total (376) strictly
below the same input with car-km 0 (1000), and wasteKgPerWeek = -5 yields
waste -130 < 0 and total 870 < 1000. -/
theorem C10_negative_passthrough :
    (∀ q : ℚ, numOr0 (some q) = q) ∧
    (calculateEmissions negCarInput).transport = some (-624) ∧ (-624 : ℚ) < 0 ∧
    (calculateEmissions negCarInput).total = some 376 ∧
    (calculateEmissions negCarZeroInput).total = some 1000 ∧ (376 : ℚ) < 1000 ∧
    (calculateEmissions negWasteInput).waste = some (-130) ∧ (-130 : ℚ) < 0 ∧
    (calculateEmissions negWasteInput).total = some 870 ∧
    (calculateEmissions negWasteZeroInput).total = some 1000 ∧ (870 : ℚ) < 1000 := by
  refine ⟨fun q => rfl, ?_, by norm_num, ?_, ?_, by norm_num, ?_, by norm_num,
    ?_, ?_, by norm_num⟩ <;>
  · first
    | (rw [calcEmissions_transport_eq]
       simp only [negCarInput, numOr0, Option.getD, calculateTransportEmissions,
         emissionFactorsTransport, jsAdd, jsMul]
       simp
       try norm_num)
    | (rw [calcEmissions_waste_eq]
       simp only [negWasteInput, numOr0, Option.getD, calculateWasteEmissions]
       simp
       try norm_num)
    | (rw [calcEmissions_total_eq, calcEmissions_transport_eq,
         calcEmissions_electricity_eq, calcEmissions_diet_eq,
         calcEmissions_waste_eq]
       simp only [negCarInput, negCarZeroInput, negWasteInput, negWasteZeroInput,
         numOr0, intOr1, Option.getD, calculateTransportEmissions,
         calculateElectricityEmissions, calculateDietEmissions,
         calculateWasteEmissions, emissionFactorsTransport, emissionFactorsDiet,
         renewableFactorsLookup, jsAdd, jsMul]
       simp
       try norm_num)
